import Mathlib

/-!
Shallow embedding of the notebook
`src/aws_bedrock/building_an_agent/01_adding_rag_to_an_agent_vdb_elasticsearch.ipynb`.

The notebook is glue code over external libraries (dotenv, LlamaIndex,
boto3/Bedrock, Elasticsearch).  We embed it as a state-passing program:

* the shared mutable globals (`Settings.llm`, `Settings.embed_model`), the
  sequence of observable workflow events, and the log of environment-variable
  reads form the state `NbState`;
* every external library call is a field of a `Library` record, returning
  `Except String α` (the `String` is the library's error, carried verbatim);
* the opaque objects the libraries hand back (documents, store handles,
  indices, engines, agents, responses) are wrapper structures;
* Python floats are modelled as real numbers.
-/

namespace Notebook

/-- `def multiply(a: float, b: float) -> float: return a * b` (notebook cell
"Define Basic Math Functions"). -/
def multiply (a b : ℝ) : ℝ := a * b

/-- `def add(a: float, b: float) -> float: return a + b` (notebook cell
"Define Basic Math Functions"). -/
def add (a b : ℝ) : ℝ := a + b

/-- Opaque document object produced by `SimpleDirectoryReader.load_data`. -/
structure Document where
  id : Nat
deriving DecidableEq

/-- Opaque `ElasticsearchStore` connection handle. -/
structure VectorStore where
  id : Nat
deriving DecidableEq

/-- Opaque `Bedrock` LLM object (`Settings.llm`). -/
structure LLMHandle where
  id : Nat
deriving DecidableEq

/-- Opaque `boto3.client("bedrock-runtime")` object. -/
structure Boto3Client where
  id : Nat
deriving DecidableEq

/-- Opaque `BedrockEmbedding` model object (`Settings.embed_model`). -/
structure EmbedModel where
  id : Nat
deriving DecidableEq

/-- Opaque `StorageContext` object. -/
structure StorageCtx where
  id : Nat
deriving DecidableEq

/-- Opaque `VectorStoreIndex` object. -/
structure VectorStoreIndex where
  id : Nat
deriving DecidableEq

/-- Opaque query engine returned by `index.as_query_engine()`. -/
structure QueryEngine where
  id : Nat
deriving DecidableEq

/-- Opaque `ReActAgent` object. -/
structure AgentHandle where
  id : Nat
deriving DecidableEq

/-- Opaque response object returned by `agent.chat(...)`. -/
structure ChatResponse where
  id : Nat
deriving DecidableEq

/-- A tool descriptor: either a `FunctionTool` wrapping a numeric callable, or
a `QueryEngineTool` wrapping a query engine with a name and a description. -/
inductive NbTool where
  | functionTool (fn : ℝ → ℝ → ℝ)
  | queryEngineTool (engine : QueryEngine) (name : String) (description : String)

/-- `FunctionTool.from_defaults(fn=...)`: wraps the callable. -/
def functionToolFromDefaults (fn : ℝ → ℝ → ℝ) : NbTool :=
  NbTool.functionTool fn

/-- `QueryEngineTool.from_defaults(query_engine, name=..., description=...)`. -/
def queryEngineToolFromDefaults (engine : QueryEngine) (name description : String) :
    NbTool :=
  NbTool.queryEngineTool engine name description

/-- Observable workflow events of the execution-flow cell, in the order the
code performs them.  `printResponse` is a possible event of the vocabulary
(the spec speaks of printing the response) but, as proved below, it never
occurs in any trace of the program. -/
inductive Step where
  | loadEnv
  | setLLM
  | printStatus (msg : String)
  | loadDocs (folder : String) (exts : List String)
  | printDocs
  | connectStore
  | printStore
  | buildIndex
  | buildTools
  | printBudgetTool
  | buildAgent (tools : List NbTool)
  | chatQuery (msg : String)
  | printResponse

/-- The program state: the process environment (read-only), the two shared
mutable LlamaIndex globals `Settings.llm` and `Settings.embed_model`, the
trace of workflow events so far, and the log of environment variables read. -/
structure NbState where
  env : String → Option String
  settings_llm : Option LLMHandle
  settings_embed : Option EmbedModel
  trace : List Step
  envReads : List String

/-- `os.getenv(k)`: returns the variable's value (or `none`) and logs the
read. -/
def getenvS (k : String) (s : NbState) : Option String × NbState :=
  (s.env k, { s with envReads := s.envReads ++ [k] })

/-- Append a workflow event to the trace. -/
def emitS (e : Step) (s : NbState) : NbState :=
  { s with trace := s.trace ++ [e] }

/-- The external library calls the notebook makes, each of which may fail with
an error message that the notebook never catches. -/
structure Library where
  /-- `load_dotenv()`. -/
  load_dotenv : Except String Bool
  /-- `Bedrock(model=..., temperature=..., max_tokens=...)`. -/
  bedrock : Option String → Nat → Nat → Except String LLMHandle
  /-- `SimpleDirectoryReader(folder, required_exts=exts).load_data()`. -/
  readDirData : String → List String → Except String (List Document)
  /-- `ElasticsearchStore(index_name=..., es_url=..., es_user=..., es_password=...)`. -/
  elasticsearchStore : Option String → Option String → Option String → Option String →
    Except String VectorStore
  /-- `boto3.client(service_name=...)`. -/
  boto3Client : String → Except String Boto3Client
  /-- `BedrockEmbedding(model_name=..., client=...)`. -/
  bedrockEmbedding : Option String → Boto3Client → Except String EmbedModel
  /-- `StorageContext.from_defaults(vector_store=...)`. -/
  storageContextFromDefaults : VectorStore → Except String StorageCtx
  /-- `VectorStoreIndex.from_documents(documents, storage_context=..., show_progress=...)`. -/
  fromDocuments : List Document → StorageCtx → Bool → Except String VectorStoreIndex
  /-- `index.as_query_engine()`. -/
  asQueryEngine : VectorStoreIndex → Except String QueryEngine
  /-- `ReActAgent.from_tools(tools, verbose=...)`. -/
  reactAgentFromTools : List NbTool → Bool → Except String AgentHandle
  /-- `agent.chat(message)`. -/
  chat : AgentHandle → String → Except String ChatResponse

/-- `load_documents(pdf_folder)`: builds a `SimpleDirectoryReader` on the
folder with `required_exts=[".pdf"]`, calls `load_data()`, and returns its
result unmodified.  It touches no shared state. -/
def load_documents (lib : Library) (pdf_folder : String) (s : NbState) :
    Except String (List Document) × NbState :=
  (lib.readDirData pdf_folder [".pdf"], emitS (Step.loadDocs pdf_folder [".pdf"]) s)

/-- `initialize_elasticsearch()`: reads the four environment variables and
forwards them, unchanged, to the `ElasticsearchStore` constructor; returns the
constructed client. -/
def initialize_elasticsearch (lib : Library) (s : NbState) :
    Except String VectorStore × NbState :=
  let (host, s1) := getenvS "ELASTIC_HOST" s
  let (username, s2) := getenvS "ELASTIC_USERNAME" s1
  let (password, s3) := getenvS "ELASTIC_PASSWORD" s2
  let (index_name, s4) := getenvS "INDEX_NAME" s3
  (lib.elasticsearchStore index_name host username password, emitS Step.connectStore s4)

/-- `create_index(documents, vector_store)`: builds the boto3 client and the
Bedrock embedding model, assigns the global `Settings.embed_model`, builds a
storage context over the vector store, and calls
`VectorStoreIndex.from_documents(documents, storage_context=..., show_progress=True)`. -/
def create_index (lib : Library) (documents : List Document)
    (vector_store : VectorStore) (s : NbState) :
    Except String VectorStoreIndex × NbState :=
  let s1 := emitS Step.buildIndex s
  match lib.boto3Client "bedrock-runtime" with
  | Except.error e => (Except.error e, s1)
  | Except.ok boto3_bedrock_client =>
    let (m, s2) := getenvS "AWS_BEDROCK_EMBEDDING_MODEL" s1
    match lib.bedrockEmbedding m boto3_bedrock_client with
    | Except.error e => (Except.error e, s2)
    | Except.ok bedrock_embedding_model =>
      let s3 := { s2 with settings_embed := some bedrock_embedding_model }
      match lib.storageContextFromDefaults vector_store with
      | Except.error e => (Except.error e, s3)
      | Except.ok storage_context =>
        (lib.fromDocuments documents storage_context true, s3)

/-- `get_budget_tool(index, name, description)`: builds a query engine from
the index and wraps it in a `QueryEngineTool`. -/
def get_budget_tool (lib : Library) (index : VectorStoreIndex)
    (name description : String) (s : NbState) : Except String NbTool × NbState :=
  match lib.asQueryEngine index with
  | Except.error e => (Except.error e, s)
  | Except.ok query_engine =>
    (Except.ok (queryEngineToolFromDefaults query_engine name description), s)

/-- `get_react_agent(multiply_tool, add_tool, budget_tool)`: passes exactly
the three tools, in this order, to `ReActAgent.from_tools` with
`verbose=True`. -/
def get_react_agent (lib : Library) (multiply_tool add_tool budget_tool : NbTool)
    (s : NbState) : Except String AgentHandle × NbState :=
  (lib.reactAgentFromTools [multiply_tool, add_tool, budget_tool] true,
   emitS (Step.buildAgent [multiply_tool, add_tool, budget_tool]) s)

/-- The chat message of the execution-flow cell. -/
def chatMessage : String :=
  "What is the total amount of the 2023 Canadian federal budget multiplied by 3? Go step by step, using a tool to do any math."

/-- Name given to the budget tool in the execution-flow cell. -/
def budgetName : String := "canadian_budget_2023"

/-- Description given to the budget tool in the execution-flow cell. -/
def budgetDesc : String :=
  "A RAG engine with some basic facts about the 2023 Canadian federal budget."

/-- The execution-flow cell, statement by statement: `load_dotenv()`; the
`Settings.llm = Bedrock(model=os.getenv("AWS_BEDROCK_LLM_MODEL"), temperature=0,
max_tokens=1000)` assignment; the status prints; `load_documents("./data")` and
`print(documents)`; `initialize_elasticsearch()` and `print(vector_store)`;
`create_index(documents, vector_store)`; the three tool constructions and
`print(budget_tool)`; `get_react_agent(...)`; and `agent.chat(...)`.  A failing
library call propagates its error verbatim and nothing further runs.  Note that
the cell ends with the assignment `response = agent.chat(...)`: the response is
never printed. -/
def runNotebook (lib : Library) (s0 : NbState) : Except String ChatResponse × NbState :=
  let s1 := emitS Step.loadEnv s0
  match lib.load_dotenv with
  | Except.error e => (Except.error e, s1)
  | Except.ok _ =>
    let (m, s2) := getenvS "AWS_BEDROCK_LLM_MODEL" s1
    let s2a := emitS Step.setLLM s2
    match lib.bedrock m 0 1000 with
    | Except.error e => (Except.error e, s2a)
    | Except.ok llm =>
      let s3 := { s2a with settings_llm := some llm }
      let s4 := emitS (Step.printStatus "Loading documents...") s3
      match load_documents lib "./data" s4 with
      | (Except.error e, s5) => (Except.error e, s5)
      | (Except.ok documents, s5) =>
        let s6 := emitS Step.printDocs s5
        let s7 := emitS (Step.printStatus "Initializing OpenSearch...") s6
        match initialize_elasticsearch lib s7 with
        | (Except.error e, s8) => (Except.error e, s8)
        | (Except.ok vector_store, s8) =>
          let s9 := emitS Step.printStore s8
          let s10 := emitS (Step.printStatus "Creating index and storing embeddings...") s9
          match create_index lib documents vector_store s10 with
          | (Except.error e, s11) => (Except.error e, s11)
          | (Except.ok index, s11) =>
            let s12 := emitS
              (Step.printStatus "Get Basic Maths Functions and Query Engine Tools...") s11
            let s13 := emitS Step.buildTools s12
            let multiply_tool := functionToolFromDefaults multiply
            let add_tool := functionToolFromDefaults add
            match get_budget_tool lib index budgetName budgetDesc s13 with
            | (Except.error e, s14) => (Except.error e, s14)
            | (Except.ok budget_tool, s14) =>
              let s15 := emitS Step.printBudgetTool s14
              let s16 := emitS
                (Step.printStatus "Initialize and Get ReAct Agent for Chat...") s15
              match get_react_agent lib multiply_tool add_tool budget_tool s16 with
              | (Except.error e, s17) => (Except.error e, s17)
              | (Except.ok agent, s17) =>
                let s18 := emitS (Step.chatQuery chatMessage) s17
                (lib.chat agent chatMessage, s18)

/-- The event trace of a run in which every library call succeeds.  The only
run-dependent datum in the trace is the query engine wrapped by the budget
tool. -/
def successTrace (qe : QueryEngine) : List Step :=
  [Step.loadEnv, Step.setLLM,
   Step.printStatus "Loading documents...",
   Step.loadDocs "./data" [".pdf"], Step.printDocs,
   Step.printStatus "Initializing OpenSearch...",
   Step.connectStore, Step.printStore,
   Step.printStatus "Creating index and storing embeddings...",
   Step.buildIndex,
   Step.printStatus "Get Basic Maths Functions and Query Engine Tools...",
   Step.buildTools, Step.printBudgetTool,
   Step.printStatus "Initialize and Get ReAct Agent for Chat...",
   Step.buildAgent [NbTool.functionTool multiply, NbTool.functionTool add,
     NbTool.queryEngineTool qe budgetName budgetDesc],
   Step.chatQuery chatMessage]

/-- The environment variables the program reads, in read order on the success
path. -/
def envVarsRead : List String :=
  ["AWS_BEDROCK_LLM_MODEL", "ELASTIC_HOST", "ELASTIC_USERNAME",
   "ELASTIC_PASSWORD", "INDEX_NAME", "AWS_BEDROCK_EMBEDDING_MODEL"]

/-- Every library call succeeds (on every input). -/
def Library.allOk (lib : Library) : Prop :=
  (∃ b, lib.load_dotenv = Except.ok b) ∧
  (∀ m t k, ∃ v, lib.bedrock m t k = Except.ok v) ∧
  (∀ p x, ∃ v, lib.readDirData p x = Except.ok v) ∧
  (∀ a b c d, ∃ v, lib.elasticsearchStore a b c d = Except.ok v) ∧
  (∀ n, ∃ v, lib.boto3Client n = Except.ok v) ∧
  (∀ m c, ∃ v, lib.bedrockEmbedding m c = Except.ok v) ∧
  (∀ v, ∃ w, lib.storageContextFromDefaults v = Except.ok w) ∧
  (∀ d c p, ∃ v, lib.fromDocuments d c p = Except.ok v) ∧
  (∀ i, ∃ v, lib.asQueryEngine i = Except.ok v) ∧
  (∀ ts v, ∃ a, lib.reactAgentFromTools ts v = Except.ok a) ∧
  (∀ a m, ∃ r, lib.chat a m = Except.ok r)

/-- A concrete library in which every call succeeds, for instantiating the
theorems. -/
def pureLib : Library where
  load_dotenv := Except.ok true
  bedrock := fun _ _ _ => Except.ok ⟨0⟩
  readDirData := fun _ _ => Except.ok [⟨0⟩]
  elasticsearchStore := fun _ _ _ _ => Except.ok ⟨0⟩
  boto3Client := fun _ => Except.ok ⟨0⟩
  bedrockEmbedding := fun _ _ => Except.ok ⟨0⟩
  storageContextFromDefaults := fun _ => Except.ok ⟨0⟩
  fromDocuments := fun _ _ _ => Except.ok ⟨0⟩
  asQueryEngine := fun _ => Except.ok ⟨0⟩
  reactAgentFromTools := fun _ _ => Except.ok ⟨0⟩
  chat := fun _ _ => Except.ok ⟨0⟩

/-- A fresh starting state over an environment in which every variable is set
(to its own name). -/
def initState : NbState where
  env := fun k => some k
  settings_llm := none
  settings_embed := none
  trace := []
  envReads := []

/-- A concrete library identical to `pureLib` except that reading the PDF
folder fails (a malformed-PDF error from the document reader). -/
def pdfFailLib : Library :=
  { pureLib with readDirData := fun _ _ => Except.error "malformed PDF" }

/-- A fresh starting state over an empty environment: no variable is set. -/
def noneState : NbState where
  env := fun _ => none
  settings_llm := none
  settings_embed := none
  trace := []
  envReads := []

theorem pureLib_allOk : pureLib.allOk :=
  ⟨⟨true, rfl⟩, fun _ _ _ => ⟨⟨0⟩, rfl⟩, fun _ _ => ⟨[⟨0⟩], rfl⟩,
   fun _ _ _ _ => ⟨⟨0⟩, rfl⟩, fun _ => ⟨⟨0⟩, rfl⟩, fun _ _ => ⟨⟨0⟩, rfl⟩,
   fun _ => ⟨⟨0⟩, rfl⟩, fun _ _ _ => ⟨⟨0⟩, rfl⟩, fun _ => ⟨⟨0⟩, rfl⟩,
   fun _ _ => ⟨⟨0⟩, rfl⟩, fun _ _ => ⟨⟨0⟩, rfl⟩⟩

/-- Success path, fully characterised: when every library call succeeds,
`runNotebook` returns the chat response, records exactly `successTrace`,
reads exactly `envVarsRead`, and sets both shared globals. -/
theorem runNotebook_allOk_eq (lib : Library) (s0 : NbState) (h : lib.allOk) :
    ∃ llm emb qe r,
      runNotebook lib s0 =
        (Except.ok r,
         { env := s0.env, settings_llm := some llm, settings_embed := some emb,
           trace := s0.trace ++ successTrace qe,
           envReads := s0.envReads ++ envVarsRead }) := by
  obtain ⟨⟨b, hb⟩, hbed, hread, hes, hboto, hemb, hsc, hfd, hqe, hagent, hchat⟩ := h
  obtain ⟨llm, hllm⟩ := hbed (s0.env "AWS_BEDROCK_LLM_MODEL") 0 1000
  obtain ⟨docs, hdocs⟩ := hread "./data" [".pdf"]
  obtain ⟨vs, hvs⟩ := hes (s0.env "INDEX_NAME") (s0.env "ELASTIC_HOST")
    (s0.env "ELASTIC_USERNAME") (s0.env "ELASTIC_PASSWORD")
  obtain ⟨cl, hcl⟩ := hboto "bedrock-runtime"
  obtain ⟨em, hem⟩ := hemb (s0.env "AWS_BEDROCK_EMBEDDING_MODEL") cl
  obtain ⟨sc, hsc2⟩ := hsc vs
  obtain ⟨idx, hidx⟩ := hfd docs sc true
  obtain ⟨qe, hqe2⟩ := hqe idx
  obtain ⟨ag, hag⟩ := hagent [NbTool.functionTool multiply, NbTool.functionTool add,
    NbTool.queryEngineTool qe budgetName budgetDesc] true
  obtain ⟨resp, hresp⟩ := hchat ag chatMessage
  refine ⟨llm, em, qe, resp, ?_⟩
  simp [runNotebook, load_documents, initialize_elasticsearch, create_index,
    get_budget_tool, get_react_agent, functionToolFromDefaults,
    queryEngineToolFromDefaults, emitS, getenvS, hb, hllm, hdocs, hvs, hcl, hem,
    hsc2, hidx, hqe2, hag, hresp, successTrace, envVarsRead]

/-- C1: for all numbers a and b (Python floats modelled as reals), the
arithmetic helpers satisfy `add a b = a + b` and `multiply a b = a * b`;
zero and negative inputs are instances of the universal statement. -/
theorem c1_arithmetic_helpers : ∀ a b : ℝ, add a b = a + b ∧ multiply a b = a * b :=
  fun _ _ => ⟨rfl, rfl⟩

/-- C9: both arithmetic helpers are commutative: `add a b = add b a` and
`multiply a b = multiply b a` for every pair of inputs. -/
theorem c9_commutative : ∀ a b : ℝ, add a b = add b a ∧ multiply a b = multiply b a := by
  intro a b
  constructor
  · simp [add, add_comm]
  · simp [multiply, mul_comm]

/-- C6: `initialize_elasticsearch` reads exactly the four environment
variables `ELASTIC_HOST`, `ELASTIC_USERNAME`, `ELASTIC_PASSWORD` and
`INDEX_NAME`, forwards each value unchanged to the `ElasticsearchStore`
constructor (as `index_name`, `es_url`, `es_user`, `es_password`), and
returns the constructed client. -/
theorem c6_initialize_elasticsearch_forwards (lib : Library) (s : NbState) :
    initialize_elasticsearch lib s =
      (lib.elasticsearchStore (s.env "INDEX_NAME") (s.env "ELASTIC_HOST")
        (s.env "ELASTIC_USERNAME") (s.env "ELASTIC_PASSWORD"),
       { s with trace := s.trace ++ [Step.connectStore],
                envReads := s.envReads ++
                  ["ELASTIC_HOST", "ELASTIC_USERNAME", "ELASTIC_PASSWORD",
                   "INDEX_NAME"] }) := by
  simp [initialize_elasticsearch, getenvS, emitS]

/-- C10: when some of the four Elasticsearch configuration variables are
unset, `initialize_elasticsearch` performs no validation: it still invokes
the `ElasticsearchStore` constructor, forwarding the missing values as
`none`, and raises no error of its own. -/
theorem c10_no_validation (lib : Library) (s : NbState)
    (_h : s.env "ELASTIC_HOST" = none ∨ s.env "ELASTIC_USERNAME" = none ∨
         s.env "ELASTIC_PASSWORD" = none ∨ s.env "INDEX_NAME" = none) :
    initialize_elasticsearch lib s =
      (lib.elasticsearchStore (s.env "INDEX_NAME") (s.env "ELASTIC_HOST")
        (s.env "ELASTIC_USERNAME") (s.env "ELASTIC_PASSWORD"),
       { s with trace := s.trace ++ [Step.connectStore],
                envReads := s.envReads ++
                  ["ELASTIC_HOST", "ELASTIC_USERNAME", "ELASTIC_PASSWORD",
                   "INDEX_NAME"] }) := by
  simp [initialize_elasticsearch, getenvS, emitS]

theorem c10_witness :
    initialize_elasticsearch pureLib noneState =
      (pureLib.elasticsearchStore (noneState.env "INDEX_NAME")
        (noneState.env "ELASTIC_HOST") (noneState.env "ELASTIC_USERNAME")
        (noneState.env "ELASTIC_PASSWORD"),
       { noneState with trace := noneState.trace ++ [Step.connectStore],
                        envReads := noneState.envReads ++
                          ["ELASTIC_HOST", "ELASTIC_USERNAME", "ELASTIC_PASSWORD",
                           "INDEX_NAME"] }) :=
  c10_no_validation pureLib noneState (Or.inl rfl)

/-- C5: `load_documents` forwards its folder argument together with the
extension filter `[".pdf"]` to the library reader and returns the reader's
document list unmodified; on the success path the top level invokes it on
the folder `"./data"`. -/
theorem c5_load_documents_forwards :
    (∀ lib folder s, load_documents lib folder s =
        (lib.readDirData folder [".pdf"],
         { s with trace := s.trace ++ [Step.loadDocs folder [".pdf"]] })) ∧
    (∀ lib s0, lib.allOk →
        Step.loadDocs "./data" [".pdf"] ∈ (runNotebook lib s0).2.trace) := by
  constructor
  · intro lib folder s
    simp [load_documents, emitS]
  · intro lib s0 h
    obtain ⟨llm, emb, qe, r, hrun⟩ := runNotebook_allOk_eq lib s0 h
    rw [hrun]
    simp [successTrace]

theorem c5_witness :
    Step.loadDocs "./data" [".pdf"] ∈ (runNotebook pureLib initState).2.trace :=
  c5_load_documents_forwards.2 pureLib initState pureLib_allOk

/-- C8: the agent is constructed from exactly three tools:
`get_react_agent` passes precisely the list `[multiply_tool, add_tool,
budget_tool]` to `ReActAgent.from_tools`, and on the success path the top
level builds the agent from the multiply function tool, the add function
tool, and the budget query-engine tool — no other tool. -/
theorem c8_three_tools :
    (∀ lib t1 t2 t3 s, get_react_agent lib t1 t2 t3 s =
        (lib.reactAgentFromTools [t1, t2, t3] true,
         { s with trace := s.trace ++ [Step.buildAgent [t1, t2, t3]] })) ∧
    (∀ lib s0, lib.allOk → ∃ qe,
        Step.buildAgent [NbTool.functionTool multiply, NbTool.functionTool add,
          NbTool.queryEngineTool qe budgetName budgetDesc] ∈
          (runNotebook lib s0).2.trace) := by
  constructor
  · intro lib t1 t2 t3 s
    simp [get_react_agent, emitS]
  · intro lib s0 h
    obtain ⟨llm, emb, qe, r, hrun⟩ := runNotebook_allOk_eq lib s0 h
    refine ⟨qe, ?_⟩
    rw [hrun]
    simp [successTrace]

theorem c8_witness :
    ∃ qe, Step.buildAgent [NbTool.functionTool multiply, NbTool.functionTool add,
      NbTool.queryEngineTool qe budgetName budgetDesc] ∈
      (runNotebook pureLib initState).2.trace :=
  c8_three_tools.2 pureLib initState pureLib_allOk

/-- C2 counterexample: the claimed final step "print the response" never
happens.  In a run in which every library call succeeds, the execution-flow
cell ends with the assignment `response = agent.chat(...)` and emits no
print-response event: `Step.printResponse` is not in the trace. -/
theorem c2_counterexample :
    Step.printResponse ∉ (runNotebook pureLib initState).2.trace := by
  obtain ⟨llm, emb, qe, r, hrun⟩ := runNotebook_allOk_eq pureLib initState pureLib_allOk
  rw [hrun]
  simp [successTrace, initState]

/-- C2 (amended): on the success path the execution-flow cell performs, in
order: load the environment, assign the Bedrock LLM to `Settings.llm`, print
a status line, load the documents and print them, print a status line,
connect the vector store and print it, print a status line, build the index,
print a status line, build the three tools and print the budget tool, print
a status line, build the agent, and issue exactly one chat query — each step
once, none repeated, and the response is never printed. -/
theorem c2_linear_single_shot (lib : Library) (s0 : NbState) (h : lib.allOk) :
    ∃ qe r sEnd, runNotebook lib s0 = (Except.ok r, sEnd) ∧
      sEnd.trace = s0.trace ++ successTrace qe ∧
      Step.printResponse ∉ successTrace qe := by
  obtain ⟨llm, emb, qe, r, hrun⟩ := runNotebook_allOk_eq lib s0 h
  exact ⟨qe, r, _, hrun, rfl, by simp [successTrace]⟩

theorem c2_witness :
    ∃ qe r sEnd, runNotebook pureLib noneState = (Except.ok r, sEnd) ∧
      sEnd.trace = noneState.trace ++ successTrace qe ∧
      Step.printResponse ∉ successTrace qe :=
  c2_linear_single_shot pureLib noneState pureLib_allOk

/-- C3 counterexample: `create_index` writes shared mutable state that later
operations observe: starting from a state in which `Settings.embed_model` is
unset, running `create_index` (with every library call succeeding) leaves
`Settings.embed_model` changed. -/
theorem c3_counterexample :
    (create_index pureLib [] ⟨0⟩ initState).2.settings_embed ≠
      initState.settings_embed := by
  simp [create_index, pureLib, initState, getenvS, emitS]

/-- C3 (amended): every step except two leaves the shared LlamaIndex
`Settings` globals unchanged; the two exceptions, both read by later library
calls, are `create_index`, which writes `Settings.embed_model` (and nothing
else: it preserves `Settings.llm`), and the top level, which writes
`Settings.llm`.  Concretely: `load_documents`, `initialize_elasticsearch`,
`get_budget_tool` and `get_react_agent` preserve both globals;
`create_index` preserves `Settings.llm` and either preserves
`Settings.embed_model` or sets it to the embedding model; and a full
successful run ends with both globals set. -/
theorem c3_settings_frame :
    (∀ lib folder s, (load_documents lib folder s).2.settings_llm = s.settings_llm ∧
        (load_documents lib folder s).2.settings_embed = s.settings_embed) ∧
    (∀ lib s, (initialize_elasticsearch lib s).2.settings_llm = s.settings_llm ∧
        (initialize_elasticsearch lib s).2.settings_embed = s.settings_embed) ∧
    (∀ lib i n d s, (get_budget_tool lib i n d s).2.settings_llm = s.settings_llm ∧
        (get_budget_tool lib i n d s).2.settings_embed = s.settings_embed) ∧
    (∀ lib t1 t2 t3 s, (get_react_agent lib t1 t2 t3 s).2.settings_llm = s.settings_llm ∧
        (get_react_agent lib t1 t2 t3 s).2.settings_embed = s.settings_embed) ∧
    (∀ lib d v s, (create_index lib d v s).2.settings_llm = s.settings_llm) ∧
    (∀ lib d v s, (create_index lib d v s).2.settings_embed = s.settings_embed ∨
        ∃ em, (create_index lib d v s).2.settings_embed = some em) ∧
    (∃ llm emb, (runNotebook pureLib initState).2.settings_llm = some llm ∧
        (runNotebook pureLib initState).2.settings_embed = some emb ∧
        initState.settings_llm = none ∧ initState.settings_embed = none) := by
  refine ⟨?_, ?_, ?_, ?_, ?_, ?_, ?_⟩
  · intro lib folder s
    simp [load_documents, emitS]
  · intro lib s
    simp [initialize_elasticsearch, getenvS, emitS]
  · intro lib i n d s
    cases h : lib.asQueryEngine i <;> simp [get_budget_tool, h]
  · intro lib t1 t2 t3 s
    simp [get_react_agent, emitS]
  · intro lib d v s
    unfold create_index
    cases lib.boto3Client "bedrock-runtime" with
    | error e => simp [emitS]
    | ok c =>
      simp only [getenvS, emitS]
      cases lib.bedrockEmbedding (s.env "AWS_BEDROCK_EMBEDDING_MODEL") c with
      | error e => simp
      | ok em =>
        cases lib.storageContextFromDefaults v <;> simp
  · intro lib d v s
    unfold create_index
    cases lib.boto3Client "bedrock-runtime" with
    | error e => exact Or.inl (by simp [emitS])
    | ok c =>
      simp only [getenvS, emitS]
      cases lib.bedrockEmbedding (s.env "AWS_BEDROCK_EMBEDDING_MODEL") c with
      | error e => exact Or.inl (by simp)
      | ok em =>
        cases lib.storageContextFromDefaults v with
        | error e => exact Or.inr ⟨em, by simp⟩
        | ok sc => exact Or.inr ⟨em, by simp⟩
  · obtain ⟨llm, emb, qe, r, hrun⟩ := runNotebook_allOk_eq pureLib initState pureLib_allOk
    exact ⟨llm, emb, by rw [hrun], by rw [hrun], rfl, rfl⟩

/-- C4: every failure of an underlying library call propagates unchanged as
the program's uncaught error, and no further step executes: for each of the
eleven library calls, if the calls before it succeed and it fails with
error `e`, the run returns exactly `Except.error e` and the event trace
stops at the failing step — nothing is retried and no fallback runs. -/
theorem c4_error_propagation :
    (∀ lib s0 e, lib.load_dotenv = Except.error e →
        (runNotebook lib s0).1 = Except.error e ∧
        (runNotebook lib s0).2.trace = s0.trace ++ [Step.loadEnv]) ∧
    (∀ lib s0 e b, lib.load_dotenv = Except.ok b →
        lib.bedrock (s0.env "AWS_BEDROCK_LLM_MODEL") 0 1000 = Except.error e →
        (runNotebook lib s0).1 = Except.error e ∧
        (runNotebook lib s0).2.trace = s0.trace ++ [Step.loadEnv, Step.setLLM]) ∧
    (∀ lib s0 e b llm, lib.load_dotenv = Except.ok b →
        lib.bedrock (s0.env "AWS_BEDROCK_LLM_MODEL") 0 1000 = Except.ok llm →
        lib.readDirData "./data" [".pdf"] = Except.error e →
        (runNotebook lib s0).1 = Except.error e ∧
        (runNotebook lib s0).2.trace = s0.trace ++
          [Step.loadEnv, Step.setLLM, Step.printStatus "Loading documents...",
           Step.loadDocs "./data" [".pdf"]]) ∧
    (∀ lib s0 e b llm docs, lib.load_dotenv = Except.ok b →
        lib.bedrock (s0.env "AWS_BEDROCK_LLM_MODEL") 0 1000 = Except.ok llm →
        lib.readDirData "./data" [".pdf"] = Except.ok docs →
        lib.elasticsearchStore (s0.env "INDEX_NAME") (s0.env "ELASTIC_HOST")
          (s0.env "ELASTIC_USERNAME") (s0.env "ELASTIC_PASSWORD") = Except.error e →
        (runNotebook lib s0).1 = Except.error e ∧
        (runNotebook lib s0).2.trace = s0.trace ++
          [Step.loadEnv, Step.setLLM, Step.printStatus "Loading documents...",
           Step.loadDocs "./data" [".pdf"], Step.printDocs,
           Step.printStatus "Initializing OpenSearch...", Step.connectStore]) ∧
    (∀ lib s0 e b llm docs vs, lib.load_dotenv = Except.ok b →
        lib.bedrock (s0.env "AWS_BEDROCK_LLM_MODEL") 0 1000 = Except.ok llm →
        lib.readDirData "./data" [".pdf"] = Except.ok docs →
        lib.elasticsearchStore (s0.env "INDEX_NAME") (s0.env "ELASTIC_HOST")
          (s0.env "ELASTIC_USERNAME") (s0.env "ELASTIC_PASSWORD") = Except.ok vs →
        lib.boto3Client "bedrock-runtime" = Except.error e →
        (runNotebook lib s0).1 = Except.error e ∧
        (runNotebook lib s0).2.trace = s0.trace ++
          [Step.loadEnv, Step.setLLM, Step.printStatus "Loading documents...",
           Step.loadDocs "./data" [".pdf"], Step.printDocs,
           Step.printStatus "Initializing OpenSearch...", Step.connectStore,
           Step.printStore, Step.printStatus "Creating index and storing embeddings...",
           Step.buildIndex]) ∧
    (∀ lib s0 e b llm docs vs cl, lib.load_dotenv = Except.ok b →
        lib.bedrock (s0.env "AWS_BEDROCK_LLM_MODEL") 0 1000 = Except.ok llm →
        lib.readDirData "./data" [".pdf"] = Except.ok docs →
        lib.elasticsearchStore (s0.env "INDEX_NAME") (s0.env "ELASTIC_HOST")
          (s0.env "ELASTIC_USERNAME") (s0.env "ELASTIC_PASSWORD") = Except.ok vs →
        lib.boto3Client "bedrock-runtime" = Except.ok cl →
        lib.bedrockEmbedding (s0.env "AWS_BEDROCK_EMBEDDING_MODEL") cl = Except.error e →
        (runNotebook lib s0).1 = Except.error e ∧
        (runNotebook lib s0).2.trace = s0.trace ++
          [Step.loadEnv, Step.setLLM, Step.printStatus "Loading documents...",
           Step.loadDocs "./data" [".pdf"], Step.printDocs,
           Step.printStatus "Initializing OpenSearch...", Step.connectStore,
           Step.printStore, Step.printStatus "Creating index and storing embeddings...",
           Step.buildIndex]) ∧
    (∀ lib s0 e b llm docs vs cl em, lib.load_dotenv = Except.ok b →
        lib.bedrock (s0.env "AWS_BEDROCK_LLM_MODEL") 0 1000 = Except.ok llm →
        lib.readDirData "./data" [".pdf"] = Except.ok docs →
        lib.elasticsearchStore (s0.env "INDEX_NAME") (s0.env "ELASTIC_HOST")
          (s0.env "ELASTIC_USERNAME") (s0.env "ELASTIC_PASSWORD") = Except.ok vs →
        lib.boto3Client "bedrock-runtime" = Except.ok cl →
        lib.bedrockEmbedding (s0.env "AWS_BEDROCK_EMBEDDING_MODEL") cl = Except.ok em →
        lib.storageContextFromDefaults vs = Except.error e →
        (runNotebook lib s0).1 = Except.error e ∧
        (runNotebook lib s0).2.trace = s0.trace ++
          [Step.loadEnv, Step.setLLM, Step.printStatus "Loading documents...",
           Step.loadDocs "./data" [".pdf"], Step.printDocs,
           Step.printStatus "Initializing OpenSearch...", Step.connectStore,
           Step.printStore, Step.printStatus "Creating index and storing embeddings...",
           Step.buildIndex]) ∧
    (∀ lib s0 e b llm docs vs cl em sc, lib.load_dotenv = Except.ok b →
        lib.bedrock (s0.env "AWS_BEDROCK_LLM_MODEL") 0 1000 = Except.ok llm →
        lib.readDirData "./data" [".pdf"] = Except.ok docs →
        lib.elasticsearchStore (s0.env "INDEX_NAME") (s0.env "ELASTIC_HOST")
          (s0.env "ELASTIC_USERNAME") (s0.env "ELASTIC_PASSWORD") = Except.ok vs →
        lib.boto3Client "bedrock-runtime" = Except.ok cl →
        lib.bedrockEmbedding (s0.env "AWS_BEDROCK_EMBEDDING_MODEL") cl = Except.ok em →
        lib.storageContextFromDefaults vs = Except.ok sc →
        lib.fromDocuments docs sc true = Except.error e →
        (runNotebook lib s0).1 = Except.error e ∧
        (runNotebook lib s0).2.trace = s0.trace ++
          [Step.loadEnv, Step.setLLM, Step.printStatus "Loading documents...",
           Step.loadDocs "./data" [".pdf"], Step.printDocs,
           Step.printStatus "Initializing OpenSearch...", Step.connectStore,
           Step.printStore, Step.printStatus "Creating index and storing embeddings...",
           Step.buildIndex]) ∧
    (∀ lib s0 e b llm docs vs cl em sc idx, lib.load_dotenv = Except.ok b →
        lib.bedrock (s0.env "AWS_BEDROCK_LLM_MODEL") 0 1000 = Except.ok llm →
        lib.readDirData "./data" [".pdf"] = Except.ok docs →
        lib.elasticsearchStore (s0.env "INDEX_NAME") (s0.env "ELASTIC_HOST")
          (s0.env "ELASTIC_USERNAME") (s0.env "ELASTIC_PASSWORD") = Except.ok vs →
        lib.boto3Client "bedrock-runtime" = Except.ok cl →
        lib.bedrockEmbedding (s0.env "AWS_BEDROCK_EMBEDDING_MODEL") cl = Except.ok em →
        lib.storageContextFromDefaults vs = Except.ok sc →
        lib.fromDocuments docs sc true = Except.ok idx →
        lib.asQueryEngine idx = Except.error e →
        (runNotebook lib s0).1 = Except.error e ∧
        (runNotebook lib s0).2.trace = s0.trace ++
          [Step.loadEnv, Step.setLLM, Step.printStatus "Loading documents...",
           Step.loadDocs "./data" [".pdf"], Step.printDocs,
           Step.printStatus "Initializing OpenSearch...", Step.connectStore,
           Step.printStore, Step.printStatus "Creating index and storing embeddings...",
           Step.buildIndex,
           Step.printStatus "Get Basic Maths Functions and Query Engine Tools...",
           Step.buildTools]) ∧
    (∀ lib s0 e b llm docs vs cl em sc idx qe, lib.load_dotenv = Except.ok b →
        lib.bedrock (s0.env "AWS_BEDROCK_LLM_MODEL") 0 1000 = Except.ok llm →
        lib.readDirData "./data" [".pdf"] = Except.ok docs →
        lib.elasticsearchStore (s0.env "INDEX_NAME") (s0.env "ELASTIC_HOST")
          (s0.env "ELASTIC_USERNAME") (s0.env "ELASTIC_PASSWORD") = Except.ok vs →
        lib.boto3Client "bedrock-runtime" = Except.ok cl →
        lib.bedrockEmbedding (s0.env "AWS_BEDROCK_EMBEDDING_MODEL") cl = Except.ok em →
        lib.storageContextFromDefaults vs = Except.ok sc →
        lib.fromDocuments docs sc true = Except.ok idx →
        lib.asQueryEngine idx = Except.ok qe →
        lib.reactAgentFromTools [NbTool.functionTool multiply, NbTool.functionTool add,
          NbTool.queryEngineTool qe budgetName budgetDesc] true = Except.error e →
        (runNotebook lib s0).1 = Except.error e ∧
        (runNotebook lib s0).2.trace = s0.trace ++
          [Step.loadEnv, Step.setLLM, Step.printStatus "Loading documents...",
           Step.loadDocs "./data" [".pdf"], Step.printDocs,
           Step.printStatus "Initializing OpenSearch...", Step.connectStore,
           Step.printStore, Step.printStatus "Creating index and storing embeddings...",
           Step.buildIndex,
           Step.printStatus "Get Basic Maths Functions and Query Engine Tools...",
           Step.buildTools, Step.printBudgetTool,
           Step.printStatus "Initialize and Get ReAct Agent for Chat...",
           Step.buildAgent [NbTool.functionTool multiply, NbTool.functionTool add,
             NbTool.queryEngineTool qe budgetName budgetDesc]]) ∧
    (∀ lib s0 e b llm docs vs cl em sc idx qe ag, lib.load_dotenv = Except.ok b →
        lib.bedrock (s0.env "AWS_BEDROCK_LLM_MODEL") 0 1000 = Except.ok llm →
        lib.readDirData "./data" [".pdf"] = Except.ok docs →
        lib.elasticsearchStore (s0.env "INDEX_NAME") (s0.env "ELASTIC_HOST")
          (s0.env "ELASTIC_USERNAME") (s0.env "ELASTIC_PASSWORD") = Except.ok vs →
        lib.boto3Client "bedrock-runtime" = Except.ok cl →
        lib.bedrockEmbedding (s0.env "AWS_BEDROCK_EMBEDDING_MODEL") cl = Except.ok em →
        lib.storageContextFromDefaults vs = Except.ok sc →
        lib.fromDocuments docs sc true = Except.ok idx →
        lib.asQueryEngine idx = Except.ok qe →
        lib.reactAgentFromTools [NbTool.functionTool multiply, NbTool.functionTool add,
          NbTool.queryEngineTool qe budgetName budgetDesc] true = Except.ok ag →
        lib.chat ag chatMessage = Except.error e →
        (runNotebook lib s0).1 = Except.error e ∧
        (runNotebook lib s0).2.trace = s0.trace ++
          [Step.loadEnv, Step.setLLM, Step.printStatus "Loading documents...",
           Step.loadDocs "./data" [".pdf"], Step.printDocs,
           Step.printStatus "Initializing OpenSearch...", Step.connectStore,
           Step.printStore, Step.printStatus "Creating index and storing embeddings...",
           Step.buildIndex,
           Step.printStatus "Get Basic Maths Functions and Query Engine Tools...",
           Step.buildTools, Step.printBudgetTool,
           Step.printStatus "Initialize and Get ReAct Agent for Chat...",
           Step.buildAgent [NbTool.functionTool multiply, NbTool.functionTool add,
             NbTool.queryEngineTool qe budgetName budgetDesc],
           Step.chatQuery chatMessage]) := by
  refine ⟨?_, ?_, ?_, ?_, ?_, ?_, ?_, ?_, ?_, ?_, ?_⟩
  · intro lib s0 e h1
    simp [runNotebook, emitS, getenvS, h1]
  · intro lib s0 e b h1 h2
    simp [runNotebook, emitS, getenvS, h1, h2]
  · intro lib s0 e b llm h1 h2 h3
    simp [runNotebook, load_documents, emitS, getenvS, h1, h2, h3]
  · intro lib s0 e b llm docs h1 h2 h3 h4
    simp [runNotebook, load_documents, initialize_elasticsearch, emitS, getenvS,
      h1, h2, h3, h4]
  · intro lib s0 e b llm docs vs h1 h2 h3 h4 h5
    simp [runNotebook, load_documents, initialize_elasticsearch, create_index,
      emitS, getenvS, h1, h2, h3, h4, h5]
  · intro lib s0 e b llm docs vs cl h1 h2 h3 h4 h5 h6
    simp [runNotebook, load_documents, initialize_elasticsearch, create_index,
      emitS, getenvS, h1, h2, h3, h4, h5, h6]
  · intro lib s0 e b llm docs vs cl em h1 h2 h3 h4 h5 h6 h7
    simp [runNotebook, load_documents, initialize_elasticsearch, create_index,
      emitS, getenvS, h1, h2, h3, h4, h5, h6, h7]
  · intro lib s0 e b llm docs vs cl em sc h1 h2 h3 h4 h5 h6 h7 h8
    simp [runNotebook, load_documents, initialize_elasticsearch, create_index,
      emitS, getenvS, h1, h2, h3, h4, h5, h6, h7, h8]
  · intro lib s0 e b llm docs vs cl em sc idx h1 h2 h3 h4 h5 h6 h7 h8 h9
    simp [runNotebook, load_documents, initialize_elasticsearch, create_index,
      get_budget_tool, emitS, getenvS, h1, h2, h3, h4, h5, h6, h7, h8, h9]
  · intro lib s0 e b llm docs vs cl em sc idx qe h1 h2 h3 h4 h5 h6 h7 h8 h9 h10
    simp [runNotebook, load_documents, initialize_elasticsearch, create_index,
      get_budget_tool, get_react_agent, functionToolFromDefaults,
      queryEngineToolFromDefaults, emitS, getenvS,
      h1, h2, h3, h4, h5, h6, h7, h8, h9, h10]
  · intro lib s0 e b llm docs vs cl em sc idx qe ag h1 h2 h3 h4 h5 h6 h7 h8 h9 h10 h11
    simp [runNotebook, load_documents, initialize_elasticsearch, create_index,
      get_budget_tool, get_react_agent, functionToolFromDefaults,
      queryEngineToolFromDefaults, emitS, getenvS,
      h1, h2, h3, h4, h5, h6, h7, h8, h9, h10, h11]

theorem c4_witness :
    (runNotebook pdfFailLib initState).1 = Except.error "malformed PDF" ∧
    (runNotebook pdfFailLib initState).2.trace = initState.trace ++
      [Step.loadEnv, Step.setLLM, Step.printStatus "Loading documents...",
       Step.loadDocs "./data" [".pdf"]] :=
  c4_error_propagation.2.2.1 pdfFailLib initState "malformed PDF" true ⟨0⟩ rfl rfl rfl

/-- C7: all configuration comes from exactly the six environment variables:
on the success path the program's environment reads are exactly
`envVarsRead` (so each of the six is read), and on every path — success or
failure — the reads form a prefix of `envVarsRead`, so no other variable is
ever read. -/
theorem c7_env_vars :
    (∀ lib s0, lib.allOk →
        (runNotebook lib s0).2.envReads = s0.envReads ++ envVarsRead) ∧
    (∀ lib s0, ∃ l l2, (runNotebook lib s0).2.envReads = s0.envReads ++ l ∧
        l ++ l2 = envVarsRead) := by
  constructor
  · intro lib s0 h
    obtain ⟨llm, emb, qe, r, hrun⟩ := runNotebook_allOk_eq lib s0 h
    rw [hrun]
  · intro lib s0
    rcases h1 : lib.load_dotenv with e | b
    · exact ⟨[], envVarsRead, by simp [runNotebook, emitS, h1], rfl⟩
    rcases h2 : lib.bedrock (s0.env "AWS_BEDROCK_LLM_MODEL") 0 1000 with e | llm
    · exact ⟨["AWS_BEDROCK_LLM_MODEL"],
        ["ELASTIC_HOST", "ELASTIC_USERNAME", "ELASTIC_PASSWORD", "INDEX_NAME",
         "AWS_BEDROCK_EMBEDDING_MODEL"],
        by simp [runNotebook, emitS, getenvS, h1, h2], rfl⟩
    rcases h3 : lib.readDirData "./data" [".pdf"] with e | docs
    · exact ⟨["AWS_BEDROCK_LLM_MODEL"],
        ["ELASTIC_HOST", "ELASTIC_USERNAME", "ELASTIC_PASSWORD", "INDEX_NAME",
         "AWS_BEDROCK_EMBEDDING_MODEL"],
        by simp [runNotebook, load_documents, emitS, getenvS, h1, h2, h3], rfl⟩
    rcases h4 : lib.elasticsearchStore (s0.env "INDEX_NAME") (s0.env "ELASTIC_HOST")
        (s0.env "ELASTIC_USERNAME") (s0.env "ELASTIC_PASSWORD") with e | vs
    · exact ⟨["AWS_BEDROCK_LLM_MODEL", "ELASTIC_HOST", "ELASTIC_USERNAME",
         "ELASTIC_PASSWORD", "INDEX_NAME"], ["AWS_BEDROCK_EMBEDDING_MODEL"],
        by simp [runNotebook, load_documents, initialize_elasticsearch, emitS,
          getenvS, h1, h2, h3, h4], rfl⟩
    rcases h5 : lib.boto3Client "bedrock-runtime" with e | cl
    · exact ⟨["AWS_BEDROCK_LLM_MODEL", "ELASTIC_HOST", "ELASTIC_USERNAME",
         "ELASTIC_PASSWORD", "INDEX_NAME"], ["AWS_BEDROCK_EMBEDDING_MODEL"],
        by simp [runNotebook, load_documents, initialize_elasticsearch,
          create_index, emitS, getenvS, h1, h2, h3, h4, h5], rfl⟩
    rcases h6 : lib.bedrockEmbedding (s0.env "AWS_BEDROCK_EMBEDDING_MODEL") cl with e | em
    · exact ⟨envVarsRead, [],
        by simp [runNotebook, load_documents, initialize_elasticsearch,
          create_index, emitS, getenvS, envVarsRead, h1, h2, h3, h4, h5, h6],
        by simp⟩
    rcases h7 : lib.storageContextFromDefaults vs with e | sc
    · exact ⟨envVarsRead, [],
        by simp [runNotebook, load_documents, initialize_elasticsearch,
          create_index, emitS, getenvS, envVarsRead, h1, h2, h3, h4, h5, h6, h7],
        by simp⟩
    rcases h8 : lib.fromDocuments docs sc true with e | idx
    · exact ⟨envVarsRead, [],
        by simp [runNotebook, load_documents, initialize_elasticsearch,
          create_index, emitS, getenvS, envVarsRead, h1, h2, h3, h4, h5, h6, h7,
          h8],
        by simp⟩
    rcases h9 : lib.asQueryEngine idx with e | qe
    · exact ⟨envVarsRead, [],
        by simp [runNotebook, load_documents, initialize_elasticsearch,
          create_index, get_budget_tool, emitS, getenvS, envVarsRead, h1, h2, h3,
          h4, h5, h6, h7, h8, h9],
        by simp⟩
    rcases h10 : lib.reactAgentFromTools [NbTool.functionTool multiply,
        NbTool.functionTool add, NbTool.queryEngineTool qe budgetName budgetDesc]
        true with e | ag
    · exact ⟨envVarsRead, [],
        by simp [runNotebook, load_documents, initialize_elasticsearch,
          create_index, get_budget_tool, get_react_agent, functionToolFromDefaults,
          queryEngineToolFromDefaults, emitS, getenvS, envVarsRead, h1, h2, h3, h4,
          h5, h6, h7, h8, h9, h10],
        by simp⟩
    rcases h11 : lib.chat ag chatMessage with e | resp
    all_goals exact ⟨envVarsRead, [],
      by simp [runNotebook, load_documents, initialize_elasticsearch,
        create_index, get_budget_tool, get_react_agent, functionToolFromDefaults,
        queryEngineToolFromDefaults, emitS, getenvS, envVarsRead, h1, h2, h3, h4,
        h5, h6, h7, h8, h9, h10, h11],
      by simp⟩

theorem c7_witness :
    (runNotebook pureLib initState).2.envReads = initState.envReads ++ envVarsRead :=
  c7_env_vars.1 pureLib initState pureLib_allOk

end Notebook
